import Mathlib

/-!
Verification of the `ronin_mission5_user` ink! contract (`src/lib.rs`):
a CRUD message store keyed by `AccountId`, with an append-only update
ledger, delete ledger and an owner fixed at construction.

The embedding models the contract state as a structure whose `messages`
field is the `Mapping<AccountId, String>` (as a partial function), with
`senders`, `updates` and `deletions` as lists, and each `#[ink(message)]`
entry point as a function taking the caller (and, where the source reads
`block_timestamp`, the clock value) explicitly and returning the new state
paired with the call's `Result`.
-/

namespace RoninMission5

/-- `AccountId` from the ink! environment, modelled abstractly as `Nat`. -/
abbrev AccountId := Nat

/-- `Timestamp` from the ink! environment (`u64` millisecond clock),
modelled as `Nat`. -/
abbrev Timestamp := Nat

/-- `enum CrudError` from `src/lib.rs`. -/
inductive CrudError where
  | YouAlreadyCreatedAMessage
  | SenderNotFound
  | YourMessageIsEmpty
  | YourMessageIsTooShort
  | NoMessageYet
  | YourMessageIsTheSameAsBefore
  | OwnerOnly
  deriving DecidableEq, Repr

/-- `struct Messages` from `src/lib.rs` (read-only view returned by
`read_all_messages`). -/
structure Messages where
  sender : AccountId
  message : String
  deriving DecidableEq, Repr

/-- `struct UpdateHistory` from `src/lib.rs`. -/
structure UpdateHistory where
  sender : AccountId
  old_message : String
  new_message : String
  timestamp : Timestamp
  deriving DecidableEq, Repr

/-- `struct DeleteHistory` from `src/lib.rs`. -/
structure DeleteHistory where
  sender : AccountId
  message : String
  timestamp : Timestamp
  deriving DecidableEq, Repr

/-- The `#[ink(storage)]` struct `CrudContract`: the `Mapping` is modelled
as a partial function from keys to values. -/
structure CrudContract where
  messages : AccountId → Option String
  senders : List AccountId
  updates : List UpdateHistory
  deletions : List DeleteHistory
  owner : AccountId

/-- `Mapping::insert` on the modelled mapping. -/
def mapInsert (k : AccountId) (v : String) (m : AccountId → Option String) :
    AccountId → Option String :=
  fun x => if x = k then some v else m x

/-- `Mapping::remove` on the modelled mapping. -/
def mapRemove (k : AccountId) (m : AccountId → Option String) :
    AccountId → Option String :=
  fun x => if x = k then none else m x

/-- Rust `String::len` is the UTF-8 byte length. -/
def strLen (s : String) : Nat := s.utf8ByteSize

/-- The `#[ink(constructor)] new`: the creating caller gets the seed
message, is the sole roster entry, and becomes the owner; ledgers start
empty. -/
def CrudContract.new (creator : AccountId) : CrudContract where
  messages := mapInsert creator "I created my CRUD contract" (fun _ => none)
  senders := [creator]
  updates := []
  deletions := []
  owner := creator

/-- `create_message` (C in CRUD): existence check, then the two length
checks, then insert into the mapping and push onto the roster. -/
def create_message (caller : AccountId) (message : String) (s : CrudContract) :
    CrudContract × Except CrudError Unit :=
  if (s.messages caller).isSome then
    (s, .error .YouAlreadyCreatedAMessage)
  else if strLen message = 0 then
    (s, .error .YourMessageIsEmpty)
  else if strLen message < 10 then
    (s, .error .YourMessageIsTooShort)
  else
    ({ s with
        messages := mapInsert caller message s.messages
        senders := s.senders ++ [caller] },
     .ok ())

/-- `read_message_from` (R in CRUD): `self.messages.get(&sender).ok_or(SenderNotFound)`.
The receiver is `&mut self` in the source but the body performs no write,
so the state passes through unchanged. -/
def read_message_from (sender : AccountId) (s : CrudContract) :
    CrudContract × Except CrudError String :=
  (s, match s.messages sender with
      | some m => .ok m
      | none => .error .SenderNotFound)

/-- `read_all_messages`: error when the roster is empty, otherwise
`filter_map` over the roster, pairing each sender that still has a mapping
entry with its message. -/
def read_all_messages (s : CrudContract) :
    CrudContract × Except CrudError (List Messages) :=
  if s.senders.isEmpty then
    (s, .error .NoMessageYet)
  else
    (s, .ok (s.senders.filterMap fun sender =>
          (s.messages sender).map fun message =>
            { sender := sender, message := message }))

/-- `update_message` (U in CRUD): lookup (else `SenderNotFound`), the two
length checks, the sameness check, then push an `UpdateHistory` entry and
overwrite the mapping entry. -/
def update_message (caller : AccountId) (now : Timestamp) (new_message : String)
    (s : CrudContract) : CrudContract × Except CrudError Unit :=
  match s.messages caller with
  | none => (s, .error .SenderNotFound)
  | some current_message =>
    if strLen new_message = 0 then
      (s, .error .YourMessageIsEmpty)
    else if strLen new_message < 10 then
      (s, .error .YourMessageIsTooShort)
    else if current_message = new_message then
      (s, .error .YourMessageIsTheSameAsBefore)
    else
      ({ s with
          updates := s.updates ++
            [{ sender := caller, old_message := current_message,
               new_message := new_message, timestamp := now }]
          messages := mapInsert caller new_message s.messages },
       .ok ())

/-- `delete_message` (D in CRUD): lookup (else `SenderNotFound`), then push
a `DeleteHistory` entry, remove the mapping entry, and `retain` every roster
element different from the caller. -/
def delete_message (caller : AccountId) (now : Timestamp) (s : CrudContract) :
    CrudContract × Except CrudError Unit :=
  match s.messages caller with
  | none => (s, .error .SenderNotFound)
  | some message =>
    ({ s with
        deletions := s.deletions ++
          [{ sender := caller, message := message, timestamp := now }]
        messages := mapRemove caller s.messages
        senders := s.senders.filter fun x => x ≠ caller },
     .ok ())

/-- `get_update_history`: owner-only read of the full update ledger
(`&self` receiver: no write possible). -/
def get_update_history (caller : AccountId) (s : CrudContract) :
    CrudContract × Except CrudError (List UpdateHistory) :=
  if caller ≠ s.owner then
    (s, .error .OwnerOnly)
  else
    (s, .ok s.updates)

/-- `get_delete_history`: owner-only read of the full delete ledger
(`&self` receiver: no write possible). -/
def get_delete_history (caller : AccountId) (s : CrudContract) :
    CrudContract × Except CrudError (List DeleteHistory) :=
  if caller ≠ s.owner then
    (s, .error .OwnerOnly)
  else
    (s, .ok s.deletions)

/-- One call of any of the seven public entry points, by an arbitrary
caller with arbitrary arguments (and clock value), relating the pre-state
to the post-state whether the call succeeds or fails. -/
inductive Step : CrudContract → CrudContract → Prop where
  | create (caller : AccountId) (message : String) (s : CrudContract) :
      Step s (create_message caller message s).1
  | readOne (sender : AccountId) (s : CrudContract) :
      Step s (read_message_from sender s).1
  | readAll (s : CrudContract) :
      Step s (read_all_messages s).1
  | update (caller : AccountId) (now : Timestamp) (new_message : String)
      (s : CrudContract) :
      Step s (update_message caller now new_message s).1
  | delete (caller : AccountId) (now : Timestamp) (s : CrudContract) :
      Step s (delete_message caller now s).1
  | getUpdates (caller : AccountId) (s : CrudContract) :
      Step s (get_update_history caller s).1
  | getDeletes (caller : AccountId) (s : CrudContract) :
      Step s (get_delete_history caller s).1

/-- States reachable from the constructed initial state by public calls. -/
inductive Reachable (creator : AccountId) : CrudContract → Prop where
  | init : Reachable creator (CrudContract.new creator)
  | step {s s' : CrudContract} :
      Reachable creator s → Step s s' → Reachable creator s'

/-- The inductive strengthening of the bijective roster/store invariant:
each key occurs in the roster exactly as often as the store predicts, with
multiplicity 0 or 1. -/
def StrongInv (s : CrudContract) : Prop :=
  ∀ id : AccountId,
    s.senders.count id = if (s.messages id).isSome then 1 else 0

/-! ### State-passthrough lemmas for the read-only entry points -/

theorem read_message_from_state (sender : AccountId) (s : CrudContract) :
    (read_message_from sender s).1 = s := rfl

theorem read_all_messages_state (s : CrudContract) :
    (read_all_messages s).1 = s := by
  unfold read_all_messages
  split <;> rfl

theorem get_update_history_state (caller : AccountId) (s : CrudContract) :
    (get_update_history caller s).1 = s := by
  unfold get_update_history
  split <;> rfl

theorem get_delete_history_state (caller : AccountId) (s : CrudContract) :
    (get_delete_history caller s).1 = s := by
  unfold get_delete_history
  split <;> rfl

/-! ### Preservation of the strengthened invariant -/

theorem strongInv_new (creator : AccountId) :
    StrongInv (CrudContract.new creator) := by
  intro id
  by_cases h : id = creator <;>
    simp [CrudContract.new, mapInsert, h, List.count_singleton', Ne.symm]

theorem strongInv_create (caller : AccountId) (message : String)
    (s : CrudContract) (h : StrongInv s) :
    StrongInv (create_message caller message s).1 := by
  unfold create_message
  split
  · exact h
  split
  · exact h
  split
  · exact h
  intro id
  rename_i hc _ _
  have hbase := h id
  have hcall := h caller
  simp only [List.count_append, List.count_singleton', mapInsert]
  by_cases hid : id = caller
  · subst hid
    simp only [Bool.not_eq_true] at hc
    simp_all
  · simp_all [Ne.symm hid]

theorem strongInv_update (caller : AccountId) (now : Timestamp)
    (new_message : String) (s : CrudContract) (h : StrongInv s) :
    StrongInv (update_message caller now new_message s).1 := by
  unfold update_message
  split
  · exact h
  split
  · exact h
  split
  · exact h
  split
  · exact h
  intro id
  rename_i current hcur _ _ _
  have hbase := h id
  simp only [mapInsert]
  by_cases hid : id = caller
  · subst hid
    simp_all
  · simp_all [hid]

theorem strongInv_delete (caller : AccountId) (now : Timestamp)
    (s : CrudContract) (h : StrongInv s) :
    StrongInv (delete_message caller now s).1 := by
  unfold delete_message
  split
  · exact h
  intro id
  rename_i message hmsg
  have hbase := h id
  simp only [mapRemove]
  by_cases hid : id = caller
  · rw [hid]
    simp only [if_pos rfl, if_true, Option.isSome_none, Bool.false_eq_true,
      if_false]
    rw [List.count_eq_zero]
    simp
  · rw [List.count_filter (by simp [hid])]
    simp_all [hid]

theorem strongInv_step {s s' : CrudContract} (h : StrongInv s)
    (hs : Step s s') : StrongInv s' := by
  cases hs with
  | create caller message s => exact strongInv_create caller message s h
  | readOne sender s => rw [read_message_from_state]; exact h
  | readAll s => rw [read_all_messages_state]; exact h
  | update caller now new_message s =>
      exact strongInv_update caller now new_message s h
  | delete caller now s => exact strongInv_delete caller now s h
  | getUpdates caller s => rw [get_update_history_state]; exact h
  | getDeletes caller s => rw [get_delete_history_state]; exact h

theorem strongInv_reachable {creator : AccountId} {s : CrudContract}
    (h : Reachable creator s) : StrongInv s := by
  induction h with
  | init => exact strongInv_new creator
  | step _ hs ih => exact strongInv_step ih hs

/-- With at most one occurrence of `a` in `l`, Rust's
`retain(|&x| x != a)` (keep everything different from `a`) coincides with
erasing the first occurrence of `a`. -/
theorem filter_ne_eq_erase (a : AccountId) (l : List AccountId)
    (h : l.count a ≤ 1) : (l.filter fun x => x ≠ a) = l.erase a := by
  induction l with
  | nil => rfl
  | cons b t ih =>
    by_cases hb : b = a
    · subst hb
      rw [List.count_cons_self] at h
      have h1 : t.count b = 0 := by omega
      have h2 : b ∉ t := by rwa [List.count_eq_zero] at h1
      rw [List.erase_cons_head, List.filter_cons_of_neg (by simp),
        List.filter_eq_self.2]
      intro x hx
      simp only [decide_eq_true_eq]
      intro hxa
      exact h2 (hxa ▸ hx)
    · rw [List.count_cons_of_ne (fun hc => hb hc.symm)] at h
      rw [List.filter_cons_of_pos (by simp [hb]), ih h,
        List.erase_cons_tail (by simp [hb])]

/-- The senders of the list built by `read_all_messages` are exactly the
roster entries that still have a mapping entry, in roster order. -/
theorem map_sender_filterMap (msgs : AccountId → Option String)
    (l : List AccountId) :
    ((l.filterMap fun sender => (msgs sender).map fun message =>
        Messages.mk sender message).map Messages.sender) =
      l.filter fun id => (msgs id).isSome := by
  induction l with
  | nil => rfl
  | cons a t ih =>
    cases h : msgs a <;>
      simp [List.filterMap_cons, List.filter_cons, h, ih]

/-! ### Claim theorems -/

/-- Claim C2: `create_message` fails with `YouAlreadyCreatedAMessage`
whenever the caller already holds a record (regardless of the text),
otherwise with `YourMessageIsEmpty` on length 0, otherwise with
`YourMessageIsTooShort` on length below 10, and otherwise succeeds,
storing exactly the given text (so `read_message_from` returns it) and
appending the caller to the roster. -/
theorem create_message_spec (caller : AccountId) (message : String)
    (s : CrudContract) :
    ((s.messages caller).isSome = true →
      create_message caller message s = (s, .error .YouAlreadyCreatedAMessage)) ∧
    ((s.messages caller).isSome = false → strLen message = 0 →
      create_message caller message s = (s, .error .YourMessageIsEmpty)) ∧
    ((s.messages caller).isSome = false → strLen message ≠ 0 →
      strLen message < 10 →
      create_message caller message s = (s, .error .YourMessageIsTooShort)) ∧
    ((s.messages caller).isSome = false → strLen message ≠ 0 →
      ¬ strLen message < 10 →
      (create_message caller message s).2 = .ok () ∧
      (read_message_from caller (create_message caller message s).1).2 =
        .ok message ∧
      (create_message caller message s).1.senders = s.senders ++ [caller]) := by
  refine ⟨?_, ?_, ?_, ?_⟩ <;> intro h1
  · simp [create_message, h1]
  all_goals intro h2
  · simp [create_message, h1, h2]
  all_goals intro h3
  · simp [create_message, h1, h2, h3]
  · simp [create_message, read_message_from, mapInsert, h1, h2, h3]

/-- Witness for C2: a fresh caller creating a long-enough message on the
initial state succeeds and can read it back. -/
theorem create_message_spec_witness :
    (create_message 1 "hello world" (CrudContract.new 0)).2 = .ok () ∧
    (read_message_from 1
        (create_message 1 "hello world" (CrudContract.new 0)).1).2 =
      .ok "hello world" ∧
    (create_message 1 "hello world" (CrudContract.new 0)).1.senders =
      (CrudContract.new 0).senders ++ [1] :=
  (create_message_spec 1 "hello world" (CrudContract.new 0)).2.2.2
    (by decide) (by decide) (by decide)

/-- Claim C4: `update_message` fails, in this order, with `SenderNotFound`
when the caller holds no record, `YourMessageIsEmpty` on length 0,
`YourMessageIsTooShort` on length below 10, and
`YourMessageIsTheSameAsBefore` when the new text equals the stored text;
each failure leaves the whole state (the update ledger included)
unchanged. -/
theorem update_message_errors (caller : AccountId) (now : Timestamp)
    (new_message : String) (s : CrudContract) :
    (s.messages caller = none →
      update_message caller now new_message s = (s, .error .SenderNotFound)) ∧
    (∀ current, s.messages caller = some current → strLen new_message = 0 →
      update_message caller now new_message s =
        (s, .error .YourMessageIsEmpty)) ∧
    (∀ current, s.messages caller = some current → strLen new_message ≠ 0 →
      strLen new_message < 10 →
      update_message caller now new_message s =
        (s, .error .YourMessageIsTooShort)) ∧
    (s.messages caller = some new_message → strLen new_message ≠ 0 →
      ¬ strLen new_message < 10 →
      update_message caller now new_message s =
        (s, .error .YourMessageIsTheSameAsBefore)) := by
  refine ⟨?_, ?_, ?_, ?_⟩
  · intro h1
    simp [update_message, h1]
  · intro current h1 h2
    simp [update_message, h1, h2]
  · intro current h1 h2 h3
    simp [update_message, h1, h2, h3]
  · intro h1 h2 h3
    simp [update_message, h1, h2, h3]

/-- Witness for C4: an unknown caller gets `SenderNotFound`, and the
creator re-sending the seed message gets `YourMessageIsTheSameAsBefore`. -/
theorem update_message_errors_witness :
    update_message 3 7 "hello world" (CrudContract.new 0) =
      (CrudContract.new 0, .error .SenderNotFound) ∧
    update_message 0 7 "I created my CRUD contract" (CrudContract.new 0) =
      (CrudContract.new 0, .error .YourMessageIsTheSameAsBefore) :=
  ⟨(update_message_errors 3 7 "hello world" (CrudContract.new 0)).1 (by decide),
   (update_message_errors 0 7 "I created my CRUD contract"
      (CrudContract.new 0)).2.2.2 (by decide) (by decide) (by decide)⟩

/-- Claim C6: both history getters fail with `OwnerOnly` exactly when the
caller differs from the owner, otherwise return the entire respective
ledger; in either case the state passes through unchanged. -/
theorem history_owner_only (caller : AccountId) (s : CrudContract) :
    (caller ≠ s.owner →
      get_update_history caller s = (s, .error .OwnerOnly) ∧
      get_delete_history caller s = (s, .error .OwnerOnly)) ∧
    (caller = s.owner →
      get_update_history caller s = (s, .ok s.updates) ∧
      get_delete_history caller s = (s, .ok s.deletions)) := by
  constructor
  · intro h
    simp [get_update_history, get_delete_history, h]
  · intro h
    simp [get_update_history, get_delete_history, h]

/-- Witness for C6: on the initial state deployed by caller 0, caller 1 is
rejected and caller 0 reads the (empty) ledgers. -/
theorem history_owner_only_witness :
    (get_update_history 1 (CrudContract.new 0) =
        (CrudContract.new 0, .error .OwnerOnly) ∧
      get_delete_history 1 (CrudContract.new 0) =
        (CrudContract.new 0, .error .OwnerOnly)) ∧
    (get_update_history 0 (CrudContract.new 0) =
        (CrudContract.new 0, .ok []) ∧
      get_delete_history 0 (CrudContract.new 0) =
        (CrudContract.new 0, .ok [])) :=
  ⟨(history_owner_only 1 (CrudContract.new 0)).1 (by decide),
   (history_owner_only 0 (CrudContract.new 0)).2 (by decide)⟩

/-- Claim C8: whenever any of the seven public operations returns an
error, the state after the call equals the state before it. -/
theorem error_no_mutation (caller sender : AccountId) (now : Timestamp)
    (text : String) (s : CrudContract) (e : CrudError) :
    ((create_message caller text s).2 = .error e →
      (create_message caller text s).1 = s) ∧
    ((read_message_from sender s).2 = .error e →
      (read_message_from sender s).1 = s) ∧
    ((read_all_messages s).2 = .error e → (read_all_messages s).1 = s) ∧
    ((update_message caller now text s).2 = .error e →
      (update_message caller now text s).1 = s) ∧
    ((delete_message caller now s).2 = .error e →
      (delete_message caller now s).1 = s) ∧
    ((get_update_history caller s).2 = .error e →
      (get_update_history caller s).1 = s) ∧
    ((get_delete_history caller s).2 = .error e →
      (get_delete_history caller s).1 = s) := by
  refine ⟨?_, ?_, ?_, ?_, ?_, ?_, ?_⟩
  · unfold create_message
    split
    · intro _; rfl
    split
    · intro _; rfl
    split
    · intro _; rfl
    · intro h; simp at h
  · intro _; exact read_message_from_state sender s
  · intro _; exact read_all_messages_state s
  · unfold update_message
    split
    · intro _; rfl
    split
    · intro _; rfl
    split
    · intro _; rfl
    split
    · intro _; rfl
    · intro h; simp at h
  · unfold delete_message
    split
    · intro _; rfl
    · intro h; simp at h
  · intro _; exact get_update_history_state caller s
  · intro _; exact get_delete_history_state caller s

/-- Witness for C8: a failing create on the initial state leaves the state
unchanged. -/
theorem error_no_mutation_witness :
    (create_message 0 "hi" (CrudContract.new 0)).1 = CrudContract.new 0 :=
  (error_no_mutation 0 0 0 "hi" (CrudContract.new 0)
    .YouAlreadyCreatedAMessage).1 rfl

/-- Claim C10: `read_message_from` and `read_all_messages` never change
the state, despite being exposed as mutation-capable (`&mut self`)
calls. -/
theorem reads_are_pure (sender : AccountId) (s : CrudContract) :
    (read_message_from sender s).1 = s ∧ (read_all_messages s).1 = s :=
  ⟨read_message_from_state sender s, read_all_messages_state s⟩

/-- Claim C3: for a caller holding text `old` and a valid different
`new_message`, `update_message` succeeds, appends exactly one
`UpdateHistory` entry (caller, old, new, supplied clock value) at the end
of the ledger, replaces the caller's stored text, and touches nothing
else. -/
theorem update_message_success (caller : AccountId) (now : Timestamp)
    (old new_message : String) (s : CrudContract)
    (hold : s.messages caller = some old)
    (h0 : strLen new_message ≠ 0) (h10 : ¬ strLen new_message < 10)
    (hdiff : old ≠ new_message) :
    (update_message caller now new_message s).2 = .ok () ∧
    (update_message caller now new_message s).1.updates =
      s.updates ++ [{ sender := caller, old_message := old,
                      new_message := new_message, timestamp := now }] ∧
    (update_message caller now new_message s).1.messages caller =
      some new_message ∧
    (∀ x, x ≠ caller →
      (update_message caller now new_message s).1.messages x =
        s.messages x) ∧
    (update_message caller now new_message s).1.senders = s.senders ∧
    (update_message caller now new_message s).1.deletions = s.deletions ∧
    (update_message caller now new_message s).1.owner = s.owner := by
  refine ⟨?_, ?_, ?_, ?_, ?_, ?_, ?_⟩ <;>
    simp [update_message, mapInsert, hold, h0, h10, hdiff]
  exact fun x hx hx2 => absurd hx2 hx

/-- Witness for C3: the creator updating the seed message to a fresh valid
text on the initial state. -/
theorem update_message_success_witness :
    (update_message 0 42 "hello world" (CrudContract.new 0)).2 = .ok () ∧
    (update_message 0 42 "hello world" (CrudContract.new 0)).1.updates =
      (CrudContract.new 0).updates ++
        [{ sender := 0, old_message := "I created my CRUD contract",
           new_message := "hello world", timestamp := 42 }] ∧
    (update_message 0 42 "hello world" (CrudContract.new 0)).1.messages 0 =
      some "hello world" :=
  ⟨(update_message_success 0 42 "I created my CRUD contract" "hello world"
      (CrudContract.new 0) rfl (by decide) (by decide) (by decide)).1,
   (update_message_success 0 42 "I created my CRUD contract" "hello world"
      (CrudContract.new 0) rfl (by decide) (by decide) (by decide)).2.1,
   (update_message_success 0 42 "I created my CRUD contract" "hello world"
      (CrudContract.new 0) rfl (by decide) (by decide) (by decide)).2.2.1⟩

/-- Claim C5: for a caller holding text `m` (appearing once in the
roster), `delete_message` succeeds, appends exactly one `DeleteHistory`
entry with the pre-delete text and the supplied clock value, removes the
record, erases the caller's (only) roster occurrence, and a subsequent
`read_message_from` fails with `SenderNotFound`; a caller without a record
gets `SenderNotFound`. -/
theorem delete_message_spec (caller : AccountId) (now : Timestamp)
    (s : CrudContract) :
    (∀ m, s.messages caller = some m → s.senders.count caller = 1 →
      (delete_message caller now s).2 = .ok () ∧
      (delete_message caller now s).1.deletions =
        s.deletions ++
          [{ sender := caller, message := m, timestamp := now }] ∧
      (delete_message caller now s).1.messages caller = none ∧
      (delete_message caller now s).1.senders = s.senders.erase caller ∧
      (read_message_from caller (delete_message caller now s).1).2 =
        .error .SenderNotFound) ∧
    (s.messages caller = none →
      delete_message caller now s = (s, .error .SenderNotFound)) := by
  constructor
  · intro m hm hc
    have herase :
        (List.filter (fun x => !decide (x = caller)) s.senders) =
          s.senders.erase caller := by
      rw [← filter_ne_eq_erase caller s.senders (le_of_eq hc)]
      simp [decide_not]
    refine ⟨?_, ?_, ?_, ?_, ?_⟩ <;>
      simp [delete_message, read_message_from, mapRemove, hm, herase]
  · intro h
    simp [delete_message, h]

/-- Witness for C5: the creator deleting the seed record on the initial
state, then failing to read it back. -/
theorem delete_message_spec_witness :
    (delete_message 0 9 (CrudContract.new 0)).2 = .ok () ∧
    (delete_message 0 9 (CrudContract.new 0)).1.messages 0 = none ∧
    (read_message_from 0 (delete_message 0 9 (CrudContract.new 0)).1).2 =
      .error .SenderNotFound :=
  ⟨((delete_message_spec 0 9 (CrudContract.new 0)).1
      "I created my CRUD contract" rfl (by decide)).1,
   ((delete_message_spec 0 9 (CrudContract.new 0)).1
      "I created my CRUD contract" rfl (by decide)).2.2.1,
   ((delete_message_spec 0 9 (CrudContract.new 0)).1
      "I created my CRUD contract" rfl (by decide)).2.2.2.2⟩

/-- Claim C7: `read_all_messages` fails with `NoMessageYet` exactly when
the roster is empty; otherwise it returns, in roster order, one
{sender, message} pair per roster entry that has a store entry (silently
skipping entries without one), and the result is non-empty whenever the
roster is non-empty and fully backed by the store. -/
theorem read_all_messages_spec (s : CrudContract) :
    (s.senders = [] → read_all_messages s = (s, .error .NoMessageYet)) ∧
    (s.senders ≠ [] →
      ∃ l : List Messages, read_all_messages s = (s, .ok l) ∧
        l.map Messages.sender =
          (s.senders.filter fun id => (s.messages id).isSome) ∧
        (∀ p ∈ l, s.messages p.sender = some p.message) ∧
        ((∀ id ∈ s.senders, (s.messages id).isSome = true) → l ≠ [])) := by
  constructor
  · intro h
    simp [read_all_messages, h]
  · intro h
    have hine : ¬ s.senders.isEmpty = true := by
      rw [List.isEmpty_iff]
      exact h
    refine ⟨_, ?_, map_sender_filterMap s.messages s.senders, ?_, ?_⟩
    · simp [read_all_messages, hine]
    · intro p hp
      rcases List.mem_filterMap.1 hp with ⟨sender, _, hmap⟩
      cases hmsg : s.messages sender <;> rw [hmsg] at hmap
      · simp at hmap
      · simp only [Option.map_some'] at hmap
        rcases Option.some.inj hmap with rfl
        exact hmsg
    · intro hall hnil
      have hmap := map_sender_filterMap s.messages s.senders
      rw [hnil, List.map_nil] at hmap
      rw [List.filter_eq_self.2 (fun a ha => by simpa using hall a ha)]
        at hmap
      exact h hmap.symm

/-- Witness for C7: on a state with an empty roster the call fails with
`NoMessageYet` and leaves the state unchanged. -/
theorem read_all_messages_spec_witness :
    read_all_messages
        { messages := fun _ => none, senders := [], updates := [],
          deletions := [], owner := 0 } =
      ({ messages := fun _ => none, senders := [], updates := [],
         deletions := [], owner := 0 }, .error .NoMessageYet) :=
  (read_all_messages_spec _).1 rfl

/-- Claim C1: in every reachable state, an id is in the `RecordStore` if
and only if it appears exactly once in the `SenderRoster`, and this
bijective membership is preserved by every one of the seven public
operations, whether the call succeeds or fails. -/
theorem bijective_membership_invariant (creator : AccountId)
    (s : CrudContract) (h : Reachable creator s) :
    (∀ id : AccountId,
      (s.messages id).isSome = true ↔ s.senders.count id = 1) ∧
    (∀ s' : CrudContract, Step s s' →
      ∀ id : AccountId,
        (s'.messages id).isSome = true ↔ s'.senders.count id = 1) := by
  have key : ∀ t : CrudContract, StrongInv t →
      ∀ id, (t.messages id).isSome = true ↔ t.senders.count id = 1 := by
    intro t ht id
    have hc := ht id
    by_cases hs : (t.messages id).isSome = true <;> simp [hs] at hc <;>
      simp [hs, hc]
  exact ⟨key s (strongInv_reachable h),
    fun s' hs id => key s' (strongInv_step (strongInv_reachable h) hs) id⟩

/-- Witness for C1: the invariant evaluated on the initial state, for the
creator and for an id that never created a message. -/
theorem bijective_membership_invariant_witness :
    (((CrudContract.new 0).messages 0).isSome = true ↔
      (CrudContract.new 0).senders.count 0 = 1) ∧
    (((CrudContract.new 0).messages 5).isSome = true ↔
      (CrudContract.new 0).senders.count 5 = 1) :=
  ⟨(bijective_membership_invariant 0 (CrudContract.new 0) Reachable.init).1 0,
   (bijective_membership_invariant 0 (CrudContract.new 0) Reachable.init).1 5⟩

/-- Claim C9: the constructor yields the state mapping exactly the creator
to the seed message, a one-element roster, empty ledgers, and the creator
as owner; and no public operation ever changes the owner field. -/
theorem constructor_and_owner_fixed (creator : AccountId) :
    (CrudContract.new creator).messages creator =
      some "I created my CRUD contract" ∧
    (∀ id, id ≠ creator → (CrudContract.new creator).messages id = none) ∧
    (CrudContract.new creator).senders = [creator] ∧
    (CrudContract.new creator).updates = [] ∧
    (CrudContract.new creator).deletions = [] ∧
    (CrudContract.new creator).owner = creator ∧
    (∀ s s' : CrudContract, Step s s' → s'.owner = s.owner) := by
  refine ⟨by simp [CrudContract.new, mapInsert], ?_, rfl, rfl, rfl, rfl, ?_⟩
  · intro id hid
    simp [CrudContract.new, mapInsert, hid]
  · intro s s' hs
    cases hs with
    | create caller message s =>
        unfold create_message
        split
        · rfl
        split
        · rfl
        split
        · rfl
        · rfl
    | readOne sender s => rw [read_message_from_state]
    | readAll s => rw [read_all_messages_state]
    | update caller now new_message s =>
        unfold update_message
        split
        · rfl
        split
        · rfl
        split
        · rfl
        split
        · rfl
        · rfl
    | delete caller now s =>
        unfold delete_message
        split
        · rfl
        · rfl
    | getUpdates caller s => rw [get_update_history_state]
    | getDeletes caller s => rw [get_delete_history_state]

/-- Witness for C9: the initial-state facts at creator 0, and the owner
after a successful create by caller 1. -/
theorem constructor_and_owner_fixed_witness :
    (CrudContract.new 0).messages 0 = some "I created my CRUD contract" ∧
    (CrudContract.new 0).messages 7 = none ∧
    (CrudContract.new 0).owner = 0 ∧
    (create_message 1 "hello world" (CrudContract.new 0)).1.owner =
      (CrudContract.new 0).owner :=
  ⟨(constructor_and_owner_fixed 0).1,
   (constructor_and_owner_fixed 0).2.1 7 (by decide),
   (constructor_and_owner_fixed 0).2.2.2.2.2.1,
   (constructor_and_owner_fixed 0).2.2.2.2.2.2 _ _
     (Step.create 1 "hello world" (CrudContract.new 0))⟩

end RoninMission5
